import Mathlib

/-!
Verification of the build orchestrator in `examples/menu/catalyst.py`.

The script is a linear pipeline: detect the host OS with `platform.system()`,
install a SQLite development package with the OS's package manager, compile
`program.c` with gcc, and run the resulting binary.  Each shell command is
spawned with `subprocess.run(full_cmd, shell=True)`; a non-zero return code
makes `run_command` print a diagnostic and call `sys.exit(1)`.

Embedding choices:
* The result of the n-th call to `platform.system()` is `detect n`; the call
  sites, in execution order, are the module-level `output_exe` computation
  (call 0) and the bodies of `install_sqlite` (1), `build_program` (2) and
  `launch_program` (3).  A real run has `detect` constant; `catalyst_main`
  is the pipeline under a constant detection.
* The exit status of the shell command line `s` is `env s : Int`
  (`subprocess.run` return codes can be negative on POSIX signals).
* `sys.exit code` is `Except.error (code, trace)`; normal completion of
  `__main__` is exit status 0.
* The observable trace records, in order, the command lines handed to the
  shell and the lines printed by the script.
-/

/-- The `c_program` global: the fixed C source file name. -/
def c_program : String := "program.c"

/-- The `output_exe` global, as a function of the OS identifier that
`platform.system()` returned when the module-level code ran:
`"program.exe" if platform.system() == "Windows" else "program"`. -/
def output_exe (system : String) : String :=
  if system = "Windows" then "program.exe" else "program"

/-- The `msys2_path` global: the raw string `F:\msys2\ucrt64.exe`. -/
def msys2_path : String := "F:\\msys2\\ucrt64.exe"

/-- Observable behaviour of one run: the command lines handed to the shell
(`subprocess.run(..., shell=True)`) and the lines printed, each in
chronological order. -/
structure TraceState where
  executed : List String
  printed : List String
deriving Repr, DecidableEq

/-- Append one printed line to the trace (a Python `print(...)`). -/
def TraceState.print (st : TraceState) (line : String) : TraceState :=
  { st with printed := st.printed ++ [line] }

/-- Append one spawned command line to the trace. -/
def TraceState.spawn (st : TraceState) (cmd : String) : TraceState :=
  { st with executed := st.executed ++ [cmd] }

/-- The command line `run_command` hands to the shell: the `full_cmd`
local, `f'{msys2_path} -c "{cmd}"'` when `use_msys` is set, else `cmd`. -/
def full_command (cmd : String) (use_msys : Bool) : String :=
  if use_msys then msys2_path ++ " -c \"" ++ cmd ++ "\"" else cmd

/-- `run_command(cmd, use_msys)`: print `Running: {full_cmd}`, spawn
`full_cmd`, and on a non-zero return code print `Command failed: {cmd}`
and `sys.exit(1)` (modelled as `Except.error (1, trace)`). -/
def run_command (env : String → Int) (st : TraceState) (cmd : String)
    (use_msys : Bool) : Except (Int × TraceState) TraceState :=
  let full_cmd := full_command cmd use_msys
  let st := st.print ("Running: " ++ full_cmd)
  let st := st.spawn full_cmd
  if env full_cmd ≠ 0 then
    Except.error (1, st.print ("Command failed: " ++ cmd))
  else
    Except.ok st

/-- `install_sqlite()`: branch on its own `platform.system()` call and run
the OS-specific package-manager command; unsupported OS prints
`Unsupported OS: {system}` and calls `sys.exit(1)`. -/
def install_sqlite (system : String) (env : String → Int) (st : TraceState) :
    Except (Int × TraceState) TraceState :=
  if system = "Windows" then
    run_command env (st.print "Detected Windows, using MSYS2 UCRT64")
      "pacman -S --needed mingw-w64-ucrt-x86_64-sqlite3" true
  else if system = "Linux" then
    run_command env (st.print "Detected Linux")
      "sudo apt update && sudo apt install -y libsqlite3-dev" false
  else if system = "Darwin" then
    run_command env (st.print "Detected macOS")
      "brew install sqlite" false
  else
    Except.error (1, st.print ("Unsupported OS: " ++ system))

/-- The compile command `f"gcc {c_program} -o {output_exe} -lsqlite3"`;
`system0` is the OS identifier observed when the `output_exe` global was
computed. -/
def build_cmd (system0 : String) : String :=
  "gcc " ++ c_program ++ " -o " ++ output_exe system0 ++ " -lsqlite3"

/-- `build_program()`: branch on its own `platform.system()` call
(`system`) and run the compile command, MSYS2-wrapped on Windows. -/
def build_program (system0 system : String) (env : String → Int)
    (st : TraceState) : Except (Int × TraceState) TraceState :=
  if system = "Windows" then
    run_command env st (build_cmd system0) true
  else
    run_command env st (build_cmd system0) false

/-- The launch command `f"./{output_exe}"`. -/
def launch_cmd (system0 : String) : String := "./" ++ output_exe system0

/-- `launch_program()`: print `Launching {output_exe}...`, branch on its
own `platform.system()` call and run the built binary, MSYS2-wrapped on
Windows. -/
def launch_program (system0 system : String) (env : String → Int)
    (st : TraceState) : Except (Int × TraceState) TraceState :=
  let st := st.print ("Launching " ++ output_exe system0 ++ "...")
  if system = "Windows" then
    run_command env st (launch_cmd system0) true
  else
    run_command env st (launch_cmd system0) false

/-- The `__main__` block: `install_sqlite(); build_program();
launch_program()`, where successive `platform.system()` calls are
`detect 0 .. detect 3`.  Returns the process exit status and the trace. -/
def catalyst_main_detect (detect : Nat → String) (env : String → Int) :
    Int × TraceState :=
  match install_sqlite (detect 1) env ⟨[], []⟩ with
  | Except.error e => e
  | Except.ok st =>
    match build_program (detect 0) (detect 2) env st with
    | Except.error e => e
    | Except.ok st =>
      match launch_program (detect 0) (detect 3) env st with
      | Except.error e => e
      | Except.ok st => (0, st)

/-- The pipeline on a host where every `platform.system()` call returns the
same identifier `system` (the behaviour of a real run). -/
def catalyst_main (system : String) (env : String → Int) : Int × TraceState :=
  catalyst_main_detect (fun _ => system) env

/-- The raw (unwrapped) package-manager command `install_sqlite` selects
for a supported OS identifier. -/
def install_cmd (system : String) : String :=
  if system = "Windows" then "pacman -S --needed mingw-w64-ucrt-x86_64-sqlite3"
  else if system = "Linux" then "sudo apt update && sudo apt install -y libsqlite3-dev"
  else "brew install sqlite"

/-- Whether the script wraps its commands in the MSYS2 shell: exactly on
Windows. -/
def uses_msys (system : String) : Bool := system = "Windows"

/-- The full install command line handed to the shell for a supported OS. -/
def install_full_cmd (system : String) : String :=
  full_command (install_cmd system) (uses_msys system)

/-- The full compile command line handed to the shell. -/
def build_full_cmd (system : String) : String :=
  full_command (build_cmd system) (uses_msys system)

/-- The full launch command line handed to the shell. -/
def launch_full_cmd (system : String) : String :=
  full_command (launch_cmd system) (uses_msys system)

/-- The `Detected ...` line `install_sqlite` prints for a supported OS. -/
def detect_msg (system : String) : String :=
  if system = "Windows" then "Detected Windows, using MSYS2 UCRT64"
  else if system = "Linux" then "Detected Linux"
  else "Detected macOS"

/-- The commands a step spawned, whether it returned or exited. -/
def executedOf : Except (Int × TraceState) TraceState → List String
  | Except.ok st => st.executed
  | Except.error (_, st) => st.executed

/-- The lines a step printed, whether it returned or exited. -/
def printedOf : Except (Int × TraceState) TraceState → List String
  | Except.ok st => st.printed
  | Except.error (_, st) => st.printed

/-- The OS identifiers the script supports. -/
def supported (system : String) : Prop :=
  system = "Windows" ∨ system = "Linux" ∨ system = "Darwin"

instance (system : String) : Decidable (supported system) := by
  unfold supported; infer_instance

/-- `run_command` spawns its command exactly once, in both outcomes. -/
theorem executedOf_run_command (env : String → Int) (st : TraceState)
    (cmd : String) (use_msys : Bool) :
    executedOf (run_command env st cmd use_msys) =
      st.executed ++ [full_command cmd use_msys] := by
  unfold run_command
  by_cases h : env (full_command cmd use_msys) = 0 <;>
    simp [h, executedOf, TraceState.print, TraceState.spawn]

/-- C3: for every supported OS identifier, the install step hands the shell
exactly the one fixed package-manager command line for that OS — pacman
(MSYS2-wrapped) on Windows, apt on Linux, brew on macOS — and no other,
whatever the command's exit status. -/
theorem install_selects_fixed_command (env : String → Int) (st : TraceState) :
    executedOf (install_sqlite "Windows" env st) =
      st.executed ++
        [msys2_path ++ " -c \"pacman -S --needed mingw-w64-ucrt-x86_64-sqlite3\""] ∧
    executedOf (install_sqlite "Linux" env st) =
      st.executed ++ ["sudo apt update && sudo apt install -y libsqlite3-dev"] ∧
    executedOf (install_sqlite "Darwin" env st) =
      st.executed ++ ["brew install sqlite"] := by
  refine ⟨?_, ?_, ?_⟩ <;>
    simp [install_sqlite, executedOf_run_command, full_command, msys2_path,
      TraceState.print]

/-- C5: on Linux the pipeline's three steps hand the shell exactly
`sudo apt update && sudo apt install -y libsqlite3-dev`,
`gcc program.c -o program -lsqlite3` and `./program`, as raw command
lines, not wrapped in the MSYS2 compatibility shell. -/
theorem linux_commands_exact (env : String → Int) (st : TraceState) :
    executedOf (install_sqlite "Linux" env st) =
      st.executed ++ ["sudo apt update && sudo apt install -y libsqlite3-dev"] ∧
    executedOf (build_program "Linux" "Linux" env st) =
      st.executed ++ ["gcc program.c -o program -lsqlite3"] ∧
    executedOf (launch_program "Linux" "Linux" env st) =
      st.executed ++ ["./program"] := by
  refine ⟨?_, ?_, ?_⟩ <;>
    simp [install_sqlite, build_program, launch_program, executedOf_run_command,
      full_command, build_cmd, launch_cmd, output_exe, c_program, TraceState.print]

/-- C6: on Windows all three command lines handed to the shell are wrapped
in the configured MSYS2 UCRT64 binary with `-c`, and the output binary
name ends in the `.exe` suffix. -/
theorem windows_commands_wrapped (env : String → Int) (st : TraceState) :
    executedOf (install_sqlite "Windows" env st) =
      st.executed ++
        [msys2_path ++ " -c \"pacman -S --needed mingw-w64-ucrt-x86_64-sqlite3\""] ∧
    executedOf (build_program "Windows" "Windows" env st) =
      st.executed ++ [msys2_path ++ " -c \"gcc program.c -o program.exe -lsqlite3\""] ∧
    executedOf (launch_program "Windows" "Windows" env st) =
      st.executed ++ [msys2_path ++ " -c \"./program.exe\""] ∧
    ∃ stem : String, output_exe "Windows" = stem ++ ".exe" := by
  refine ⟨?_, ?_, ?_, "program", rfl⟩ <;>
    simp [install_sqlite, build_program, launch_program, executedOf_run_command,
      full_command, msys2_path, build_cmd, launch_cmd, output_exe, c_program,
      TraceState.print]

/-- C9: for every pair of OS identifiers observed at startup and at the
later steps, the name `build_program` passes to the compiler after `-o`
and the name `launch_program` executes are one and the same value,
`output_exe` of the startup identifier. -/
theorem build_output_matches_launch_target (system0 system : String)
    (env : String → Int) (st : TraceState) :
    ∃ name : String, name = output_exe system0 ∧
      executedOf (build_program system0 system env st) =
        st.executed ++
          [full_command ("gcc " ++ c_program ++ " -o " ++ name ++ " -lsqlite3")
            (uses_msys system)] ∧
      executedOf (launch_program system0 system env st) =
        st.executed ++ [full_command ("./" ++ name) (uses_msys system)] := by
  refine ⟨output_exe system0, rfl, ?_, ?_⟩ <;>
  · by_cases h : system = "Windows" <;>
      simp [build_program, launch_program, executedOf_run_command, build_cmd,
        launch_cmd, uses_msys, h, TraceState.print]

/-- C8: when every `platform.system()` call of a run returns the same
identifier — which is what the platform library guarantees within one run —
the pipeline behaves exactly as if the identifier were determined once at
startup and observed unchanged by every step. -/
theorem os_detected_once (detect : Nat → String) (env : String → Int)
    (h : ∀ n, detect n = detect 0) :
    catalyst_main_detect detect env = catalyst_main (detect 0) env := by
  unfold catalyst_main catalyst_main_detect
  rw [h 1, h 2, h 3]

/-- Witness for `os_detected_once` at a constant Linux detection. -/
theorem os_detected_once_witness :
    catalyst_main_detect (fun _ => "Linux") (fun _ => 0) =
      catalyst_main ((fun _ : Nat => "Linux") 0) (fun _ => 0) :=
  os_detected_once (fun _ => "Linux") (fun _ => 0) (fun _ => rfl)

/-- C4: for any OS identifier outside {Windows, Linux, Darwin} the run
prints only the unsupported-OS message and terminates with exit status 1,
spawning no command at all. -/
theorem unsupported_os_aborts (system : String) (env : String → Int)
    (h : ¬ supported system) :
    catalyst_main system env = (1, ⟨[], ["Unsupported OS: " ++ system]⟩) := by
  have h1 : system ≠ "Windows" := fun e => h (Or.inl e)
  have h2 : system ≠ "Linux" := fun e => h (Or.inr (Or.inl e))
  have h3 : system ≠ "Darwin" := fun e => h (Or.inr (Or.inr e))
  simp [catalyst_main, catalyst_main_detect, install_sqlite, h1, h2, h3,
    TraceState.print]

/-- Witness for `unsupported_os_aborts` at the identifier `FreeBSD`. -/
theorem unsupported_os_aborts_witness :
    catalyst_main "FreeBSD" (fun _ => 0) =
      (1, ⟨[], ["Unsupported OS: FreeBSD"]⟩) :=
  unsupported_os_aborts "FreeBSD" (fun _ => 0) (by decide)

/-- C7 as stated is false at an MSYS2-wrapped command: for the Windows
install command, the command line actually executed is the wrapped
`F:\msys2\ucrt64.exe -c "..."` line, while the diagnostic names only the
unwrapped command, so no printed line names the executed command. -/
theorem diagnostic_not_executed_command :
    printedOf (run_command (fun _ => 1) ⟨[], []⟩
        "pacman -S --needed mingw-w64-ucrt-x86_64-sqlite3" true) =
      ["Running: F:\\msys2\\ucrt64.exe -c \"pacman -S --needed mingw-w64-ucrt-x86_64-sqlite3\"",
       "Command failed: pacman -S --needed mingw-w64-ucrt-x86_64-sqlite3"] ∧
    executedOf (run_command (fun _ => 1) ⟨[], []⟩
        "pacman -S --needed mingw-w64-ucrt-x86_64-sqlite3" true) =
      ["F:\\msys2\\ucrt64.exe -c \"pacman -S --needed mingw-w64-ucrt-x86_64-sqlite3\""] ∧
    ("Command failed: " ++
        "F:\\msys2\\ucrt64.exe -c \"pacman -S --needed mingw-w64-ucrt-x86_64-sqlite3\"") ∉
      printedOf (run_command (fun _ => 1) ⟨[], []⟩
        "pacman -S --needed mingw-w64-ucrt-x86_64-sqlite3" true) := by
  refine ⟨?_, ?_, ?_⟩ <;> decide

/-- C7 (amended): when the spawned command line exits non-zero,
`run_command` prints a diagnostic naming the failing command as it was
passed in (the unwrapped command) and immediately terminates the program
with exit status 1, having spawned the command exactly once. -/
theorem run_command_failure_exits (env : String → Int) (st : TraceState)
    (cmd : String) (use_msys : Bool)
    (h : env (full_command cmd use_msys) ≠ 0) :
    run_command env st cmd use_msys =
      Except.error (1,
        ⟨st.executed ++ [full_command cmd use_msys],
         st.printed ++ ["Running: " ++ full_command cmd use_msys,
                        "Command failed: " ++ cmd]⟩) := by
  simp [run_command, h, TraceState.print, TraceState.spawn]

/-- Witness for `run_command_failure_exits` on a failing `./program`. -/
theorem run_command_failure_exits_witness :
    run_command (fun _ => 1) ⟨[], []⟩ "./program" false =
      Except.error (1,
        ⟨["./program"], ["Running: ./program", "Command failed: ./program"]⟩) :=
  run_command_failure_exits (fun _ => 1) ⟨[], []⟩ "./program" false (by decide)

/-- C1: for every supported OS, if a step's command line exits non-zero
then no later step's command is spawned and the process exits with
status 1 — stated for each of the three steps in turn. -/
theorem step_failure_stops_pipeline (system : String) (env : String → Int)
    (hsup : supported system) :
    (env (install_full_cmd system) ≠ 0 →
      (catalyst_main system env).1 = 1 ∧
      (catalyst_main system env).2.executed = [install_full_cmd system]) ∧
    (env (install_full_cmd system) = 0 → env (build_full_cmd system) ≠ 0 →
      (catalyst_main system env).1 = 1 ∧
      (catalyst_main system env).2.executed =
        [install_full_cmd system, build_full_cmd system]) ∧
    (env (install_full_cmd system) = 0 → env (build_full_cmd system) = 0 →
      env (launch_full_cmd system) ≠ 0 →
      (catalyst_main system env).1 = 1 ∧
      (catalyst_main system env).2.executed =
        [install_full_cmd system, build_full_cmd system,
         launch_full_cmd system]) := by
  obtain h | h | h := hsup <;> subst h <;>
    refine ⟨fun h1 => ?_, fun h1 h2 => ?_, fun h1 h2 h3 => ?_⟩ <;>
    simp_all [catalyst_main, catalyst_main_detect, install_sqlite, build_program,
      launch_program, run_command, full_command, install_full_cmd, build_full_cmd,
      launch_full_cmd, install_cmd, build_cmd, launch_cmd, uses_msys, output_exe,
      c_program, msys2_path, TraceState.print, TraceState.spawn]

/-- Witness for `step_failure_stops_pipeline`: on Linux with every command
failing, only the install command is spawned and the exit status is 1. -/
theorem step_failure_stops_pipeline_witness :
    (catalyst_main "Linux" (fun _ => 1)).1 = 1 ∧
    (catalyst_main "Linux" (fun _ => 1)).2.executed =
      [install_full_cmd "Linux"] :=
  (step_failure_stops_pipeline "Linux" (fun _ => 1) (by decide)).1 (by decide)

/-- C2: for every supported OS, if all three command lines exit with
status 0 then the process exits with status 0, exactly the three step
commands are spawned in order, and the last one is the command that runs
the freshly built binary `./{output_exe}` (MSYS2-wrapped on Windows). -/
theorem all_success_runs_binary_last (system : String) (env : String → Int)
    (hsup : supported system)
    (h1 : env (install_full_cmd system) = 0)
    (h2 : env (build_full_cmd system) = 0)
    (h3 : env (launch_full_cmd system) = 0) :
    (catalyst_main system env).1 = 0 ∧
    (catalyst_main system env).2.executed =
      [install_full_cmd system, build_full_cmd system, launch_full_cmd system] ∧
    (catalyst_main system env).2.executed.getLast? =
      some (launch_full_cmd system) ∧
    launch_full_cmd system =
      full_command ("./" ++ output_exe system) (uses_msys system) := by
  obtain h | h | h := hsup <;> subst h <;>
    simp_all [catalyst_main, catalyst_main_detect, install_sqlite, build_program,
      launch_program, run_command, full_command, install_full_cmd, build_full_cmd,
      launch_full_cmd, install_cmd, build_cmd, launch_cmd, uses_msys, output_exe,
      c_program, msys2_path, TraceState.print, TraceState.spawn]

/-- Witness for `all_success_runs_binary_last` on Linux with every command
succeeding. -/
theorem all_success_runs_binary_last_witness :
    (catalyst_main "Linux" (fun _ => 0)).1 = 0 ∧
    (catalyst_main "Linux" (fun _ => 0)).2.executed =
      [install_full_cmd "Linux", build_full_cmd "Linux",
       launch_full_cmd "Linux"] ∧
    (catalyst_main "Linux" (fun _ => 0)).2.executed.getLast? =
      some (launch_full_cmd "Linux") ∧
    launch_full_cmd "Linux" =
      full_command ("./" ++ output_exe "Linux") (uses_msys "Linux") :=
  all_success_runs_binary_last "Linux" (fun _ => 0) (by decide)
    (by decide) (by decide) (by decide)

/-- `run_command` on a command line that exits 0. -/
theorem run_command_ok (env : String → Int) (st : TraceState) (cmd : String)
    (use_msys : Bool) (h : env (full_command cmd use_msys) = 0) :
    run_command env st cmd use_msys =
      Except.ok ((st.print ("Running: " ++ full_command cmd use_msys)).spawn
        (full_command cmd use_msys)) := by
  simp [run_command, h]

/-- `run_command` on a command line that exits non-zero. -/
theorem run_command_fail (env : String → Int) (st : TraceState) (cmd : String)
    (use_msys : Bool) (h : env (full_command cmd use_msys) ≠ 0) :
    run_command env st cmd use_msys =
      Except.error (1,
        (((st.print ("Running: " ++ full_command cmd use_msys)).spawn
          (full_command cmd use_msys)).print ("Command failed: " ++ cmd))) := by
  simp [run_command, h]

/-- For a supported OS, `install_sqlite` is the detection message followed
by `run_command` on the selected package-manager command. -/
theorem install_sqlite_eq (system : String) (hsup : supported system)
    (env : String → Int) (st : TraceState) :
    install_sqlite system env st =
      run_command env (st.print (detect_msg system)) (install_cmd system)
        (uses_msys system) := by
  obtain h | h | h := hsup <;> subst h <;>
    simp [install_sqlite, detect_msg, install_cmd, uses_msys]

/-- `build_program` is `run_command` on the compile command, wrapped
exactly on Windows. -/
theorem build_program_eq (system0 system : String) (env : String → Int)
    (st : TraceState) :
    build_program system0 system env st =
      run_command env st (build_cmd system0) (uses_msys system) := by
  by_cases hW : system = "Windows" <;> simp [build_program, uses_msys, hW]

/-- `launch_program` is the `Launching ...` line followed by `run_command`
on the launch command, wrapped exactly on Windows. -/
theorem launch_program_eq (system0 system : String) (env : String → Int)
    (st : TraceState) :
    launch_program system0 system env st =
      run_command env (st.print ("Launching " ++ output_exe system0 ++ "..."))
        (launch_cmd system0) (uses_msys system) := by
  by_cases hW : system = "Windows" <;> simp [launch_program, uses_msys, hW]

/-- For a supported OS, the whole run in uniform `run_command` form. -/
theorem catalyst_main_eq (system : String) (env : String → Int)
    (hsup : supported system) :
    catalyst_main system env =
      match run_command env (TraceState.print ⟨[], []⟩ (detect_msg system))
          (install_cmd system) (uses_msys system) with
      | Except.error e => e
      | Except.ok st =>
        match run_command env st (build_cmd system) (uses_msys system) with
        | Except.error e => e
        | Except.ok st =>
          match run_command env
              (st.print ("Launching " ++ output_exe system ++ "..."))
              (launch_cmd system) (uses_msys system) with
          | Except.error e => e
          | Except.ok st => (0, st) := by
  simp only [catalyst_main, catalyst_main_detect, install_sqlite_eq system hsup,
    build_program_eq, launch_program_eq]

/-- C10: the orchestrator is deterministic — two runs that observe the
same OS identifier and the same exit status for every command line the
run spawns execute the same command sequence, print the same lines and
exit with the same status. -/
theorem pipeline_deterministic (system : String) (env1 env2 : String → Int)
    (h : ∀ c ∈ (catalyst_main system env1).2.executed, env1 c = env2 c) :
    catalyst_main system env1 = catalyst_main system env2 := by
  by_cases hsup : supported system
  · rw [catalyst_main_eq system env1 hsup, catalyst_main_eq system env2 hsup]
    rw [catalyst_main_eq system env1 hsup] at h
    by_cases h1 : env1 (full_command (install_cmd system) (uses_msys system)) = 0
    · by_cases h2 : env1 (full_command (build_cmd system) (uses_msys system)) = 0
      · by_cases h3 : env1 (full_command (launch_cmd system) (uses_msys system)) = 0
        · have e1 := h (full_command (install_cmd system) (uses_msys system))
            (by simp [run_command, h1, h2, h3, TraceState.print, TraceState.spawn])
          have e2 := h (full_command (build_cmd system) (uses_msys system))
            (by simp [run_command, h1, h2, h3, TraceState.print, TraceState.spawn])
          have e3 := h (full_command (launch_cmd system) (uses_msys system))
            (by simp [run_command, h1, h2, h3, TraceState.print, TraceState.spawn])
          have h1' : env2 (full_command (install_cmd system) (uses_msys system)) = 0 :=
            e1.symm.trans h1
          have h2' : env2 (full_command (build_cmd system) (uses_msys system)) = 0 :=
            e2.symm.trans h2
          have h3' : env2 (full_command (launch_cmd system) (uses_msys system)) = 0 :=
            e3.symm.trans h3
          simp [run_command, h1, h2, h3, h1', h2', h3']
        · have e1 := h (full_command (install_cmd system) (uses_msys system))
            (by simp [run_command, h1, h2, h3, TraceState.print, TraceState.spawn])
          have e2 := h (full_command (build_cmd system) (uses_msys system))
            (by simp [run_command, h1, h2, h3, TraceState.print, TraceState.spawn])
          have e3 := h (full_command (launch_cmd system) (uses_msys system))
            (by simp [run_command, h1, h2, h3, TraceState.print, TraceState.spawn])
          have h1' : env2 (full_command (install_cmd system) (uses_msys system)) = 0 :=
            e1.symm.trans h1
          have h2' : env2 (full_command (build_cmd system) (uses_msys system)) = 0 :=
            e2.symm.trans h2
          have h3' : env2 (full_command (launch_cmd system) (uses_msys system)) ≠ 0 :=
            fun e => h3 (e3.trans e)
          simp [run_command, h1, h2, h3, h1', h2', h3']
      · have e1 := h (full_command (install_cmd system) (uses_msys system))
          (by simp [run_command, h1, h2, TraceState.print, TraceState.spawn])
        have e2 := h (full_command (build_cmd system) (uses_msys system))
          (by simp [run_command, h1, h2, TraceState.print, TraceState.spawn])
        have h1' : env2 (full_command (install_cmd system) (uses_msys system)) = 0 :=
          e1.symm.trans h1
        have h2' : env2 (full_command (build_cmd system) (uses_msys system)) ≠ 0 :=
          fun e => h2 (e2.trans e)
        simp [run_command, h1, h2, h1', h2']
    · have e1 := h (full_command (install_cmd system) (uses_msys system))
        (by simp [run_command, h1, TraceState.print, TraceState.spawn])
      have h1' : env2 (full_command (install_cmd system) (uses_msys system)) ≠ 0 :=
        fun e => h1 (e1.trans e)
      simp [run_command, h1, h1']
  · have hW : system ≠ "Windows" := fun e => hsup (Or.inl e)
    have hL : system ≠ "Linux" := fun e => hsup (Or.inr (Or.inl e))
    have hD : system ≠ "Darwin" := fun e => hsup (Or.inr (Or.inr e))
    simp [catalyst_main, catalyst_main_detect, install_sqlite, hW, hL, hD]

/-- Witness for `pipeline_deterministic`: an all-success macOS run against
an environment that differs only on a command the run never spawns. -/
theorem pipeline_deterministic_witness :
    catalyst_main "Darwin" (fun _ => 0) =
      catalyst_main "Darwin" (fun c => if c = "pacman" then 3 else 0) :=
  pipeline_deterministic "Darwin" (fun _ => 0)
    (fun c => if c = "pacman" then 3 else 0) (by decide)
